import Mathlib

/-!
# Login form submit handler (src/src/script.js)

A shallow embedding of the single event handler of the repository and of its three helper
functions `showError`, `startCamera` and `stopCamera`.

* The DOM elements the script touches are the fields of `Page`.
* Everything the script does to the outside (camera request, network request, navigation,
  console output, stopping a track, attaching a stream) is appended, in program order, to the
  `trace` of a `World`.
* The three things the browser decides (the submitted form entries, the outcome of
  `getUserMedia`, the outcome of `fetch` followed by `response.json()`) are the fields of `Env`.
-/

namespace Proctoring

/-! ## JavaScript values -/

/-- A JSON number, given by the two observations the script can make of it: `isZero` says whether
ToBoolean gives false, and `text` is its string form by Number::toString (for instance `1.5`
or `1e+21`). The arithmetic of doubles is not modelled. -/
structure JSNumber where
  isZero : Bool
  text : String

/-- JavaScript values as `response.json()` can produce them, plus `undefined` (the value of a
property that is not there). -/
inductive JSValue where
  | undefined
  | null
  | bool (b : Bool)
  | num (x : JSNumber)
  | str (s : String)
  | arr (elems : List JSValue)
  | obj (props : List (String × JSValue))

/-- ToBoolean: `undefined`, `null`, `false`, zero and the empty string are falsy, every array and
every object is truthy. -/
def truthy : JSValue → Bool
  | .undefined => false
  | .null => false
  | .bool b => b
  | .num x => !x.isZero
  | .str s => s != ""
  | .arr _ => true
  | .obj _ => true

/-- Own property test on the property list of a parsed object. -/
def hasOwnKey (key : String) (props : List (String × JSValue)) : Bool :=
  props.any (fun kv => kv.1 == key)

/-- Value of the last entry with the given key: a later entry overwrites an earlier one, both in
`JSON.parse` and in `Object.fromEntries`. -/
def lookupLast {α : Type} (key : String) : List (String × α) → Option α
  | [] => none
  | (k, v) :: rest =>
    match lookupLast key rest with
    | some later => some later
    | none => if k = key then some v else none

/-- Property read `value.name` for a name that no built-in prototype defines (the script reads
`ok`, `token` and `error`). Reading a property of `undefined` or `null` throws a TypeError
(`none`); on a parsed object the own property is returned when present; in every other case
the result is `undefined`. -/
def getProp (value : JSValue) (name : String) : Option JSValue :=
  match value with
  | .undefined => none
  | .null => none
  | .obj props => some ((lookupLast name props).getD .undefined)
  | _ => some .undefined

mutual
/-- ToString, as applied by a template literal and by the `textContent` setter to a value that is
neither `null` nor `undefined`. `none` is a thrown TypeError.
An array is converted by `Array.prototype.join`. A parsed object inherits
`Object.prototype.toString`, which gives `[object Object]`, unless it has an own property named
`toString`: that property is a JSON value, hence not callable, and the fallback `valueOf` never
yields a primitive, so the conversion throws. -/
def toStr : JSValue → Option String
  | .undefined => some "undefined"
  | .null => some "null"
  | .bool true => some "true"
  | .bool false => some "false"
  | .num x => some x.text
  | .str s => some s
  | .arr elems =>
    match joinParts elems with
    | some parts => some (String.intercalate "," parts)
    | none => none
  | .obj props => if hasOwnKey "toString" props then none else some "[object Object]"
/-- String forms of the elements of an array, as `Array.prototype.join` computes them:
`undefined` and `null` elements give the empty string. -/
def joinParts : List JSValue → Option (List String)
  | [] => some []
  | .undefined :: rest =>
    match joinParts rest with
    | some parts => some ("" :: parts)
    | none => none
  | .null :: rest =>
    match joinParts rest with
    | some parts => some ("" :: parts)
    | none => none
  | x :: rest =>
    match toStr x with
    | none => none
    | some s =>
      match joinParts rest with
      | some parts => some (s :: parts)
      | none => none
end

/-! ## Browser state and effects -/

/-- A media stream handle: the tracks are named by numbers. -/
structure MediaStream where
  id : Nat
  tracks : List Nat
  deriving DecidableEq

/-- The arguments of the `fetch` call. The body is the member list, in order, of the JSON object
text that `JSON.stringify` produced. -/
structure Request where
  url : String
  method : String
  headers : List (String × String)
  body : List (String × String)
  deriving DecidableEq

/-- What the script does to the outside world. -/
inductive Effect where
  | preventDefault
  | getUserMedia
  | setSrcObject (stream : Option MediaStream)
  | trackStop (track : Nat)
  | fetch (req : Request)
  | navigate (url : String)
  | consoleError (label : String)
  deriving DecidableEq

/-- The DOM state the script reads and writes: `errorMessageDiv`, `loginButton`, `cameraFeed`,
`cameraPlaceholder`, and the tracks on which `stop()` has been called. -/
structure Page where
  errorDisplay : String
  errorText : String
  buttonDisabled : Bool
  buttonText : String
  srcObject : Option MediaStream
  placeholderDisplay : String
  feedDisplay : String
  stopped : List Nat
  deriving DecidableEq

/-- The page together with the effects performed so far, oldest first. -/
structure World where
  page : Page
  trace : List Effect
  deriving DecidableEq

/-- How a block of statements ends: normally, or with a thrown exception. -/
inductive Completion where
  | normal (w : World)
  | thrown (w : World)

/-- Outcome of `navigator.mediaDevices.getUserMedia`. -/
inductive CameraOutcome where
  | granted (stream : MediaStream)
  | denied

/-- Outcome of `fetch` followed by `response.json()`. -/
inductive NetOutcome where
  | fetchRejected
  | jsonRejected
  | json (result : JSValue)

/-- What the browser supplies to one run of the submit handler. The entries of the form are
text-valued: a name and the string the control holds. -/
structure Env where
  formData : List (String × String)
  camera : CameraOutcome
  net : NetOutcome

/-! ## The script -/

/-- Record an effect. -/
def emit (e : Effect) (w : World) : World :=
  { w with trace := w.trace ++ [e] }

/-- Property read `formProps.name` where `formProps = Object.fromEntries(formData)`:
`none` is `undefined`. -/
def formProp (formData : List (String × String)) (name : String) : Option String :=
  lookupLast name formData

/-- Truthiness of a form property: `undefined` and the empty string are falsy. -/
def truthyField : Option String → Bool
  | none => false
  | some s => s != ""

/-- The function `JSON.stringify` on an object literal whose property values are strings or
`undefined`:
a property whose value is `undefined` is left out. -/
def JSON_stringify : List (String × Option String) → List (String × String)
  | [] => []
  | (k, some v) :: rest => (k, v) :: JSON_stringify rest
  | (_, none) :: rest => JSON_stringify rest

/-- The request of lines 46 to 56. -/
def loginRequest (formData : List (String × String)) : Request :=
  { url := "http://127.0.0.1:5001/api/login"
    method := "POST"
    headers := [("Content-Type", "application/json")]
    body := JSON_stringify [("username", formProp formData "username"),
                            ("password", formProp formData "password"),
                            ("role", formProp formData "role")] }

/-- The function `showError` (lines 89 to 92). The parameter is the string the `textContent`
setter stores; a caller that passes another value converts it first. -/
def showError (message : String) (w : World) : World :=
  { w with page := { w.page with errorText := message, errorDisplay := "block" } }

/-- The function `startCamera` (lines 97 to 102). -/
def startCamera (camera : CameraOutcome) (w : World) : Completion :=
  let w1 := emit .getUserMedia w
  match camera with
  | .denied => .thrown w1
  | .granted stream =>
    let w2 := emit (.setSrcObject (some stream))
      { w1 with page := { w1.page with srcObject := some stream } }
    .normal { w2 with page := { w2.page with placeholderDisplay := "none",
                                             feedDisplay := "block" } }

/-- The function `stopCamera` (lines 107 to 113). -/
def stopCamera (w : World) : World :=
  let w1 : World :=
    match w.page.srcObject with
    | some stream =>
      { page := { w.page with stopped := w.page.stopped ++ stream.tracks }
        trace := w.trace ++ stream.tracks.map Effect.trackStop }
    | none => w
  let w2 := emit (.setSrcObject none) { w1 with page := { w1.page with srcObject := none } }
  { w2 with page := { w2.page with placeholderDisplay := "block", feedDisplay := "none" } }

/-- The statements `loginButton.disabled = false; loginButton.textContent = originalButtonText`. -/
def restoreButton (originalButtonText : String) (w : World) : World :=
  { w with page := { w.page with buttonDisabled := false, buttonText := originalButtonText } }

/-- The expression of line 69: `result.error` when it is truthy, the fallback text otherwise. -/
def rejectionMessage (error : JSValue) : JSValue :=
  if truthy error then error else .str "An unknown error occurred."

/-- The body of the `try` block of lines 45 to 73. -/
def tryLogin (env : Env) (originalButtonText : String) (w : World) : Completion :=
  let w1 := emit (.fetch (loginRequest env.formData)) w
  match env.net with
  | .fetchRejected => .thrown w1
  | .jsonRejected => .thrown w1
  | .json result =>
    match getProp result "ok" with
    | none => .thrown w1
    | some ok =>
      if truthy ok then
        let w2 := stopCamera w1
        match (getProp result "token").bind toStr with
        | none => .thrown w2
        | some token => .normal (emit (.navigate ("examproctor://start?token=" ++ token)) w2)
      else
        match getProp result "error" with
        | none => .thrown w1
        | some error =>
          match toStr (rejectionMessage error) with
          | none => .thrown w1
          | some text =>
            .normal (stopCamera (restoreButton originalButtonText (showError text w1)))

/-- The `catch` block of lines 74 to 80. -/
def catchLogin (originalButtonText : String) (w : World) : World :=
  let w1 := emit (.consoleError "Network or server error:") w
  let w2 := showError
    "Could not connect to the server. Please check your connection and try again." w1
  stopCamera (restoreButton originalButtonText w2)

/-- The condition of line 26: one of the four required properties is falsy. -/
def missingRequired (formData : List (String × String)) : Bool :=
  !truthyField (formProp formData "fullName") || !truthyField (formProp formData "usn")
    || !truthyField (formProp formData "username")
    || !truthyField (formProp formData "password")

/-- The submit handler (lines 10 to 81), run on a page `p`; the trace of the result holds the
effects of this run. -/
def submitHandler (env : Env) (p : Page) : World :=
  let w0 := emit .preventDefault { page := p, trace := [] }
  let w1 : World := { w0 with page := { w0.page with errorDisplay := "none", errorText := "" } }
  let originalButtonText := w1.page.buttonText
  let w2 : World :=
    { w1 with page := { w1.page with buttonDisabled := true, buttonText := "Logging in..." } }
  if missingRequired env.formData then
    restoreButton originalButtonText
      (showError "All fields are required. Please fill out the form completely." w2)
  else
    match startCamera env.camera w2 with
    | .thrown w3 =>
      let w4 := emit (.consoleError "Camera access error:") w3
      restoreButton originalButtonText (showError
        "Camera access is required for the exam. Please allow camera permissions and try again."
        w4)
    | .normal w3 =>
      match tryLogin env originalButtonText w3 with
      | .normal w4 => w4
      | .thrown w4 => catchLogin originalButtonText w4

/-! ## Observations on traces -/

/-- The stream attached to `cameraFeed` after the effects of a trace, starting from `init`. -/
def attachedAfter (init : Option MediaStream) : List Effect → Option MediaStream
  | [] => init
  | .setSrcObject s :: rest => attachedAfter s rest
  | _ :: rest => attachedAfter init rest

/-- The trace contains an assignment to `window.location.href`. -/
def navigates (tr : List Effect) : Bool :=
  tr.any (fun e => match e with | .navigate _ => true | _ => false)

/-- The requests passed to `fetch`, in order. -/
def requests : List Effect → List Request
  | [] => []
  | .fetch r :: rest => r :: requests rest
  | _ :: rest => requests rest

/-! ## The vocabulary of the specification -/

/-- The four fields the form requires. -/
def requiredFields : List String := ["fullName", "usn", "username", "password"]

/-- A form field is missing or is the empty string. -/
abbrev fieldEmpty (formData : List (String × String)) (name : String) : Prop :=
  formProp formData name = none ∨ formProp formData name = some ""

/-- The submission passes validation: none of the required fields is missing or empty. -/
abbrev passesValidation (formData : List (String × String)) : Prop :=
  ∀ name ∈ requiredFields, ¬ fieldEmpty formData name

/-- The handler reached the network step and the response body parsed to `result`. -/
abbrev responseReceived (env : Env) (result : JSValue) : Prop :=
  passesValidation env.formData ∧ (∃ s, env.camera = .granted s) ∧ env.net = .json result

/-- The world after lines 11 to 20: default prevented, error hidden, button disabled. -/
def afterReset (p : Page) : World :=
  { page := { p with errorDisplay := "none", errorText := "", buttonDisabled := true,
                     buttonText := "Logging in..." }
    trace := [.preventDefault] }

/-- The world after a successful `startCamera` on `afterReset p`. -/
def afterCamera (p : Page) (s : MediaStream) : World :=
  { page := { p with errorDisplay := "none", errorText := "", buttonDisabled := true,
                     buttonText := "Logging in...", srcObject := some s,
                     placeholderDisplay := "none", feedDisplay := "block" }
    trace := [.preventDefault, .getUserMedia, .setSrcObject (some s)] }

/-- The final world when the network step throws before the camera is stopped. -/
def failedWorld (env : Env) (p : Page) (s : MediaStream) : World :=
  { page := { p with errorDisplay := "block",
                     errorText := "Could not connect to the server. Please check your connection and try again.",
                     buttonDisabled := false, srcObject := none,
                     placeholderDisplay := "block", feedDisplay := "none",
                     stopped := p.stopped ++ s.tracks }
    trace := [.preventDefault, .getUserMedia, .setSrcObject (some s),
              .fetch (loginRequest env.formData), .consoleError "Network or server error:"]
              ++ s.tracks.map Effect.trackStop ++ [.setSrcObject none] }

/-- The final world when the conversion of the token throws after the camera was stopped. -/
def failedAfterStopWorld (env : Env) (p : Page) (s : MediaStream) : World :=
  { page := { p with errorDisplay := "block",
                     errorText := "Could not connect to the server. Please check your connection and try again.",
                     buttonDisabled := false, srcObject := none,
                     placeholderDisplay := "block", feedDisplay := "none",
                     stopped := p.stopped ++ s.tracks }
    trace := [.preventDefault, .getUserMedia, .setSrcObject (some s),
              .fetch (loginRequest env.formData)]
              ++ s.tracks.map Effect.trackStop
              ++ [.setSrcObject none, .consoleError "Network or server error:",
                  .setSrcObject none] }

/-- The final world of a successful login with token text `tok`. -/
def successWorld (env : Env) (p : Page) (s : MediaStream) (tok : String) : World :=
  { page := { p with errorDisplay := "none", errorText := "", buttonDisabled := true,
                     buttonText := "Logging in...", srcObject := none,
                     placeholderDisplay := "block", feedDisplay := "none",
                     stopped := p.stopped ++ s.tracks }
    trace := [.preventDefault, .getUserMedia, .setSrcObject (some s),
              .fetch (loginRequest env.formData)]
              ++ s.tracks.map Effect.trackStop
              ++ [.setSrcObject none, .navigate ("examproctor://start?token=" ++ tok)] }

/-- The final world when the backend rejects the login and `text` is displayed. -/
def rejectedWorld (env : Env) (p : Page) (s : MediaStream) (text : String) : World :=
  { page := { p with errorDisplay := "block", errorText := text,
                     buttonDisabled := false, srcObject := none,
                     placeholderDisplay := "block", feedDisplay := "none",
                     stopped := p.stopped ++ s.tracks }
    trace := [.preventDefault, .getUserMedia, .setSrcObject (some s),
              .fetch (loginRequest env.formData)]
              ++ s.tracks.map Effect.trackStop ++ [.setSrcObject none] }

/-! ## Sample inputs -/

/-- A page as it stands before a submission, with an old error still shown. -/
def samplePage : Page :=
  { errorDisplay := "block", errorText := "old", buttonDisabled := false, buttonText := "Login",
    srcObject := none, placeholderDisplay := "block", feedDisplay := "none", stopped := [] }

/-- A completely filled form. -/
def sampleForm : List (String × String) :=
  [("fullName", "A"), ("usn", "1"), ("username", "u"), ("password", "p"), ("role", "student")]

/-- A stream with two tracks. -/
def sampleStream : MediaStream := { id := 1, tracks := [7, 8] }

/-- A complete form that has no role entry. -/
def formWithoutRole : List (String × String) :=
  [("fullName", "A"), ("usn", "1"), ("username", "u"), ("password", "p")]

/-- A response with a truthy ok whose token is an object with an own `toString` property. -/
def opaqueTokenResponse : JSValue :=
  .obj [("ok", .bool true), ("token", .obj [("toString", .num ⟨false, "1"⟩)])]

/-! ## Basic lemmas -/

theorem truthyField_eq_false_iff (v : Option String) :
    truthyField v = false ↔ v = none ∨ v = some "" := by
  cases v with
  | none => simp [truthyField]
  | some s => simp [truthyField]

theorem missingRequired_iff (fd : List (String × String)) :
    missingRequired fd = true ↔ ∃ name ∈ requiredFields, fieldEmpty fd name := by
  simp only [missingRequired, Bool.or_eq_true, Bool.not_eq_true', truthyField_eq_false_iff,
    requiredFields, fieldEmpty, List.mem_cons, List.mem_singleton, exists_eq_or_imp,
    exists_eq_left, List.not_mem_nil, false_and, exists_false, or_false, or_assoc]

theorem missingRequired_of_valid {fd : List (String × String)} (h : passesValidation fd) :
    missingRequired fd = false := by
  cases hm : missingRequired fd with
  | false => rfl
  | true =>
    obtain ⟨name, hmem, he⟩ := (missingRequired_iff fd).mp hm
    exact absurd he (h name hmem)

theorem submitHandler_unfold (env : Env) (p : Page) :
    submitHandler env p =
      if missingRequired env.formData then
        restoreButton p.buttonText
          (showError "All fields are required. Please fill out the form completely."
            (afterReset p))
      else
        match startCamera env.camera (afterReset p) with
        | .thrown w3 =>
          restoreButton p.buttonText (showError
            "Camera access is required for the exam. Please allow camera permissions and try again."
            (emit (.consoleError "Camera access error:") w3))
        | .normal w3 =>
          match tryLogin env p.buttonText w3 with
          | .normal w4 => w4
          | .thrown w4 => catchLogin p.buttonText w4 := rfl

theorem run_invalid {env : Env} (p : Page) (h : missingRequired env.formData = true) :
    submitHandler env p =
      { page := { p with errorDisplay := "block",
                         errorText := "All fields are required. Please fill out the form completely.",
                         buttonDisabled := false }
        trace := [.preventDefault] } := by
  rw [submitHandler_unfold, if_pos h]
  rfl

theorem run_denied {env : Env} (p : Page) (hv : missingRequired env.formData = false)
    (hc : env.camera = .denied) :
    submitHandler env p =
      { page := { p with errorDisplay := "block",
                         errorText := "Camera access is required for the exam. Please allow camera permissions and try again.",
                         buttonDisabled := false }
        trace := [.preventDefault, .getUserMedia, .consoleError "Camera access error:"] } := by
  rw [submitHandler_unfold, hv, hc]
  rfl

theorem run_granted {env : Env} (p : Page) {s : MediaStream}
    (hv : missingRequired env.formData = false) (hc : env.camera = .granted s) :
    submitHandler env p =
      match tryLogin env p.buttonText (afterCamera p s) with
      | .normal w4 => w4
      | .thrown w4 => catchLogin p.buttonText w4 := by
  rw [submitHandler_unfold, hv, hc]
  rfl

theorem run_fetchRejected {env : Env} (p : Page) {s : MediaStream}
    (hv : missingRequired env.formData = false) (hc : env.camera = .granted s)
    (hn : env.net = .fetchRejected) : submitHandler env p = failedWorld env p s := by
  rw [run_granted p hv hc]
  simp [tryLogin, hn, catchLogin, stopCamera, emit, showError, restoreButton, afterCamera,
    failedWorld]

theorem run_jsonRejected {env : Env} (p : Page) {s : MediaStream}
    (hv : missingRequired env.formData = false) (hc : env.camera = .granted s)
    (hn : env.net = .jsonRejected) : submitHandler env p = failedWorld env p s := by
  rw [run_granted p hv hc]
  simp [tryLogin, hn, catchLogin, stopCamera, emit, showError, restoreButton, afterCamera,
    failedWorld]

theorem run_okThrows {env : Env} (p : Page) {s : MediaStream} {r : JSValue}
    (hv : missingRequired env.formData = false) (hc : env.camera = .granted s)
    (hn : env.net = .json r) (hok : getProp r "ok" = none) :
    submitHandler env p = failedWorld env p s := by
  rw [run_granted p hv hc]
  simp [tryLogin, hn, hok, catchLogin, stopCamera, emit, showError, restoreButton, afterCamera,
    failedWorld]

theorem run_success {env : Env} (p : Page) {s : MediaStream} {r ok : JSValue} {tok : String}
    (hv : missingRequired env.formData = false) (hc : env.camera = .granted s)
    (hn : env.net = .json r) (hok : getProp r "ok" = some ok) (ht : truthy ok = true)
    (htok : (getProp r "token").bind toStr = some tok) :
    submitHandler env p = successWorld env p s tok := by
  rw [run_granted p hv hc]
  simp [tryLogin, hn, hok, ht, htok, stopCamera, emit, afterCamera, successWorld]

theorem run_tokenThrows {env : Env} (p : Page) {s : MediaStream} {r ok : JSValue}
    (hv : missingRequired env.formData = false) (hc : env.camera = .granted s)
    (hn : env.net = .json r) (hok : getProp r "ok" = some ok) (ht : truthy ok = true)
    (htok : (getProp r "token").bind toStr = none) :
    submitHandler env p = failedAfterStopWorld env p s := by
  rw [run_granted p hv hc]
  simp [tryLogin, hn, hok, ht, htok, catchLogin, stopCamera, emit, showError, restoreButton,
    afterCamera, failedAfterStopWorld]

theorem run_rejected {env : Env} (p : Page) {s : MediaStream} {r ok error : JSValue}
    {text : String}
    (hv : missingRequired env.formData = false) (hc : env.camera = .granted s)
    (hn : env.net = .json r) (hok : getProp r "ok" = some ok) (ht : truthy ok = false)
    (he : getProp r "error" = some error) (hs : toStr (rejectionMessage error) = some text) :
    submitHandler env p = rejectedWorld env p s text := by
  rw [run_granted p hv hc]
  simp [tryLogin, hn, hok, ht, he, hs, stopCamera, emit, showError, restoreButton,
    afterCamera, rejectedWorld]

theorem run_messageThrows {env : Env} (p : Page) {s : MediaStream} {r ok error : JSValue}
    (hv : missingRequired env.formData = false) (hc : env.camera = .granted s)
    (hn : env.net = .json r) (hok : getProp r "ok" = some ok) (ht : truthy ok = false)
    (he : getProp r "error" = some error) (hs : toStr (rejectionMessage error) = none) :
    submitHandler env p = failedWorld env p s := by
  rw [run_granted p hv hc]
  simp [tryLogin, hn, hok, ht, he, hs, catchLogin, stopCamera, emit, showError, restoreButton,
    afterCamera, failedWorld]

theorem getProp_of_ok {r ok : JSValue} (hok : getProp r "ok" = some ok) (name : String) :
    ∃ v, getProp r name = some v := by
  cases r <;> simp [getProp] at hok ⊢

theorem getProp_error_of_ok {r ok : JSValue} (hok : getProp r "ok" = some ok) :
    ∃ error, getProp r "error" = some error :=
  getProp_of_ok hok "error"

/-- Every run that acquired the camera ends in one of four shapes of world. -/
theorem run_granted_cases {env : Env} (p : Page) {s : MediaStream}
    (hv : missingRequired env.formData = false) (hc : env.camera = .granted s) :
    submitHandler env p = failedWorld env p s
      ∨ submitHandler env p = failedAfterStopWorld env p s
      ∨ (∃ tok, submitHandler env p = successWorld env p s tok)
      ∨ (∃ text, submitHandler env p = rejectedWorld env p s text) := by
  cases hn : env.net with
  | fetchRejected => exact Or.inl (run_fetchRejected p hv hc hn)
  | jsonRejected => exact Or.inl (run_jsonRejected p hv hc hn)
  | json r =>
    cases hok : getProp r "ok" with
    | none => exact Or.inl (run_okThrows p hv hc hn hok)
    | some ok =>
      cases ht : truthy ok with
      | true =>
        cases htok : (getProp r "token").bind toStr with
        | none => exact Or.inr (Or.inl (run_tokenThrows p hv hc hn hok ht htok))
        | some tok => exact Or.inr (Or.inr (Or.inl ⟨tok, run_success p hv hc hn hok ht htok⟩))
      | false =>
        obtain ⟨error, he⟩ := getProp_error_of_ok hok
        cases hs : toStr (rejectionMessage error) with
        | none => exact Or.inl (run_messageThrows p hv hc hn hok ht he hs)
        | some text =>
          exact Or.inr (Or.inr (Or.inr ⟨text, run_rejected p hv hc hn hok ht he hs⟩))

/-! ## Lemmas on traces -/

theorem attachedAfter_append_set (init s : Option MediaStream) (l : List Effect) :
    attachedAfter init (l ++ [Effect.setSrcObject s]) = s := by
  induction l generalizing init with
  | nil => rfl
  | cons e rest ih => cases e <;> simp [attachedAfter, ih]

theorem split_at_last_navigate {l pre post : List Effect} {u url : String}
    (hl : ∀ x, Effect.navigate x ∉ l)
    (h : l ++ [Effect.navigate u] = pre ++ Effect.navigate url :: post) :
    pre = l ∧ post = [] ∧ url = u := by
  induction l generalizing pre with
  | nil =>
    cases pre with
    | nil =>
      simp only [List.nil_append, List.cons.injEq, Effect.navigate.injEq] at h
      exact ⟨rfl, h.2.symm, h.1.symm⟩
    | cons b rest => simp at h
  | cons a rest ih =>
    cases pre with
    | nil =>
      simp only [List.cons_append, List.nil_append, List.cons.injEq] at h
      exact absurd (List.mem_cons_self _ _) (h.1 ▸ hl url)
    | cons b rest2 =>
      simp only [List.cons_append, List.cons.injEq] at h
      obtain ⟨hpre, hpost, hurl⟩ := ih (fun x hx => hl x (List.mem_cons_of_mem _ hx)) h.2
      exact ⟨by rw [h.1, hpre], hpost, hurl⟩

theorem navigates_eq_true_iff (tr : List Effect) :
    navigates tr = true ↔ ∃ url, Effect.navigate url ∈ tr := by
  simp only [navigates, List.any_eq_true]
  constructor
  · rintro ⟨e, he, hm⟩
    cases e <;> simp at hm
    exact ⟨_, he⟩
  · rintro ⟨url, h⟩
    exact ⟨_, h, rfl⟩

/-! ## The claims -/

/-- C1: when at least one of the four fields fullName, usn, username, password is missing or the
empty string, the handler displays the message that all fields are required and performs no
camera request, no network request and no navigation. -/
theorem C1_missing_field_rejected (env : Env) (p : Page)
    (h : ∃ name ∈ requiredFields, fieldEmpty env.formData name) :
    (submitHandler env p).page.errorText
        = "All fields are required. Please fill out the form completely."
      ∧ (submitHandler env p).page.errorDisplay = "block"
      ∧ Effect.getUserMedia ∉ (submitHandler env p).trace
      ∧ (∀ req, Effect.fetch req ∉ (submitHandler env p).trace)
      ∧ (∀ url, Effect.navigate url ∉ (submitHandler env p).trace) := by
  rw [run_invalid p ((missingRequired_iff _).mpr h)]
  simp

/-- Witness of C1: a form whose password is the empty string. -/
theorem C1_missing_field_rejected_witness :
    (∃ name ∈ requiredFields,
        fieldEmpty [("fullName", "A"), ("usn", "1"), ("username", "u"), ("password", "")] name)
      ∧ (submitHandler ⟨[("fullName", "A"), ("usn", "1"), ("username", "u"), ("password", "")],
            .granted sampleStream, .fetchRejected⟩ samplePage).page.errorText
          = "All fields are required. Please fill out the form completely." :=
  ⟨⟨"password", by decide, by decide⟩,
   (C1_missing_field_rejected
      ⟨[("fullName", "A"), ("usn", "1"), ("username", "u"), ("password", "")],
        .granted sampleStream, .fetchRejected⟩ samplePage ⟨"password", by decide, by decide⟩).1⟩

/-- C2: when the submission passes validation and the camera request fails, the handler issues no
network request and no navigation, and displays the message that camera access is required. -/
theorem C2_camera_failure_no_network (env : Env) (p : Page)
    (hv : passesValidation env.formData) (hc : env.camera = .denied) :
    (∀ req, Effect.fetch req ∉ (submitHandler env p).trace)
      ∧ (∀ url, Effect.navigate url ∉ (submitHandler env p).trace)
      ∧ (submitHandler env p).page.errorText
          = "Camera access is required for the exam. Please allow camera permissions and try again."
      ∧ (submitHandler env p).page.errorDisplay = "block" := by
  rw [run_denied p (missingRequired_of_valid hv) hc]
  simp

/-- Witness of C2: a complete form with the camera denied. -/
theorem C2_camera_failure_no_network_witness :
    passesValidation sampleForm
      ∧ (submitHandler ⟨sampleForm, .denied, .fetchRejected⟩ samplePage).page.errorText
          = "Camera access is required for the exam. Please allow camera permissions and try again." :=
  ⟨by decide,
   (C2_camera_failure_no_network ⟨sampleForm, .denied, .fetchRejected⟩ samplePage
      (by decide) rfl).2.2.1⟩

/-- C3: for a submission whose backend response has a truthy ok, wherever an assignment to
window.location.href stands in the sequence of effects of the handler, every track of the acquired
stream has been stopped before it and cameraFeed.srcObject has been set to null before it, so
that no stream is attached at that point. -/
theorem C3_camera_stopped_before_navigation (env : Env) (p : Page) (s : MediaStream)
    (r ok : JSValue) (hv : passesValidation env.formData) (hc : env.camera = .granted s)
    (hn : env.net = .json r) (hok : getProp r "ok" = some ok) (ht : truthy ok = true)
    (pre post : List Effect) (url : String)
    (hsplit : (submitHandler env p).trace = pre ++ Effect.navigate url :: post) :
    (∀ t ∈ s.tracks, Effect.trackStop t ∈ pre)
      ∧ Effect.setSrcObject none ∈ pre
      ∧ attachedAfter p.srcObject pre = none := by
  have hm := missingRequired_of_valid hv
  cases htok : (getProp r "token").bind toStr with
  | none =>
    rw [run_tokenThrows p hm hc hn hok ht htok] at hsplit
    have hmem : Effect.navigate url ∈ (failedAfterStopWorld env p s).trace := by
      rw [hsplit]; simp
    simp [failedAfterStopWorld] at hmem
  | some tok =>
    rw [run_success p hm hc hn hok ht htok] at hsplit
    have hshape : (successWorld env p s tok).trace
        = ([.preventDefault, .getUserMedia, .setSrcObject (some s),
              .fetch (loginRequest env.formData)]
              ++ s.tracks.map Effect.trackStop ++ [.setSrcObject none])
            ++ [Effect.navigate ("examproctor://start?token=" ++ tok)] := by
      simp [successWorld]
    rw [hshape] at hsplit
    obtain ⟨hpre, -, -⟩ := split_at_last_navigate (by simp) hsplit
    subst hpre
    refine ⟨?_, by simp, attachedAfter_append_set _ _ _⟩
    intro t hmem
    simp [hmem]

/-- Witness of C3: a successful login on a stream with two tracks. -/
theorem C3_camera_stopped_before_navigation_witness :
    (submitHandler ⟨sampleForm, .granted sampleStream,
          .json (.obj [("ok", .bool true), ("token", .str "abc")])⟩ samplePage).trace
        = [.preventDefault, .getUserMedia, .setSrcObject (some sampleStream),
            .fetch (loginRequest sampleForm), .trackStop 7, .trackStop 8, .setSrcObject none]
          ++ Effect.navigate "examproctor://start?token=abc" :: []
      ∧ attachedAfter samplePage.srcObject
          [.preventDefault, .getUserMedia, .setSrcObject (some sampleStream),
            .fetch (loginRequest sampleForm), .trackStop 7, .trackStop 8, .setSrcObject none]
          = none :=
  ⟨by decide,
   (C3_camera_stopped_before_navigation
      ⟨sampleForm, .granted sampleStream,
        .json (.obj [("ok", .bool true), ("token", .str "abc")])⟩ samplePage sampleStream
      (.obj [("ok", .bool true), ("token", .str "abc")]) (.bool true)
      (by decide) rfl rfl rfl rfl
      [.preventDefault, .getUserMedia, .setSrcObject (some sampleStream),
        .fetch (loginRequest sampleForm), .trackStop 7, .trackStop 8, .setSrcObject none]
      [] "examproctor://start?token=abc" (by decide)).2.2⟩

/-- C4: whenever the camera stream was acquired, whatever the outcome of the network step, when the
handler completes every track of the acquired stream has been stopped and cameraFeed.srcObject is
null; and every run that starts with no attached stream ends with no attached stream. -/
theorem C4_camera_always_released (env : Env) (p : Page) :
    (∀ s, passesValidation env.formData → env.camera = .granted s →
        (submitHandler env p).page.srcObject = none
          ∧ ∀ t ∈ s.tracks, t ∈ (submitHandler env p).page.stopped
              ∧ Effect.trackStop t ∈ (submitHandler env p).trace)
      ∧ (p.srcObject = none → (submitHandler env p).page.srcObject = none) := by
  have key : ∀ s, missingRequired env.formData = false → env.camera = .granted s →
      (submitHandler env p).page.srcObject = none
        ∧ ∀ t ∈ s.tracks, t ∈ (submitHandler env p).page.stopped
            ∧ Effect.trackStop t ∈ (submitHandler env p).trace := by
    intro s hm hc
    rcases run_granted_cases p hm hc with h | h | ⟨tok, h⟩ | ⟨text, h⟩ <;> rw [h]
    · refine ⟨rfl, fun t ht => ?_⟩
      simp [failedWorld, ht]
    · refine ⟨rfl, fun t ht => ?_⟩
      simp [failedAfterStopWorld, ht]
    · refine ⟨rfl, fun t ht => ?_⟩
      simp [successWorld, ht]
    · refine ⟨rfl, fun t ht => ?_⟩
      simp [rejectedWorld, ht]
  refine ⟨fun s hv hc => key s (missingRequired_of_valid hv) hc, fun hp => ?_⟩
  cases hm : missingRequired env.formData with
  | true => rw [run_invalid p hm]; exact hp
  | false =>
    cases hc : env.camera with
    | denied => rw [run_denied p hm hc]; exact hp
    | granted s => exact (key s hm hc).1

/-- Witness of C4: the response body fails to parse after the camera was acquired. -/
theorem C4_camera_always_released_witness :
    passesValidation sampleForm
      ∧ (submitHandler ⟨sampleForm, .granted sampleStream, .jsonRejected⟩ samplePage).page.srcObject
          = none
      ∧ (∀ t ∈ sampleStream.tracks,
          t ∈ (submitHandler ⟨sampleForm, .granted sampleStream, .jsonRejected⟩
                samplePage).page.stopped
            ∧ Effect.trackStop t
                ∈ (submitHandler ⟨sampleForm, .granted sampleStream, .jsonRejected⟩
                    samplePage).trace) :=
  ⟨by decide,
   (C4_camera_always_released ⟨sampleForm, .granted sampleStream, .jsonRejected⟩ samplePage).1
      sampleStream (by decide) rfl⟩

/-- Counterexample to C5 as stated: the backend rejects with the empty string as error, and the
text displayed is the fallback message, not the empty string. -/
theorem C5_counterexample :
    passesValidation sampleForm
      ∧ getProp (.obj [("ok", .bool false), ("error", .str "")]) "ok" = some (.bool false)
      ∧ truthy (.bool false) = false
      ∧ getProp (.obj [("ok", .bool false), ("error", .str "")]) "error" = some (.str "")
      ∧ (submitHandler ⟨sampleForm, .granted sampleStream,
            .json (.obj [("ok", .bool false), ("error", .str "")])⟩ samplePage).page.errorText
          = "An unknown error occurred."
      ∧ (submitHandler ⟨sampleForm, .granted sampleStream,
            .json (.obj [("ok", .bool false), ("error", .str "")])⟩ samplePage).page.errorText
          ≠ "" :=
  ⟨by decide, rfl, rfl, rfl, by decide, by decide⟩

/-- C5, amended: for every backend response whose ok is falsy and that carries a non-empty error
string e, the text displayed in the error message element at the end of the handler is exactly
e. -/
theorem C5_backend_error_verbatim (env : Env) (p : Page) (s : MediaStream) (r ok : JSValue)
    (e : String) (hv : passesValidation env.formData) (hc : env.camera = .granted s)
    (hn : env.net = .json r) (hok : getProp r "ok" = some ok) (ht : truthy ok = false)
    (he : getProp r "error" = some (.str e)) (hne : e ≠ "") :
    (submitHandler env p).page.errorText = e
      ∧ (submitHandler env p).page.errorDisplay = "block" := by
  have hs : toStr (rejectionMessage (.str e)) = some e := by
    simp [rejectionMessage, truthy, hne, toStr]
  rw [run_rejected p (missingRequired_of_valid hv) hc hn hok ht he hs]
  exact ⟨rfl, rfl⟩

/-- Witness of C5: the backend rejects with the error text `bad login`. -/
theorem C5_backend_error_verbatim_witness :
    passesValidation sampleForm
      ∧ (submitHandler ⟨sampleForm, .granted sampleStream,
            .json (.obj [("ok", .bool false), ("error", .str "bad login")])⟩
          samplePage).page.errorText = "bad login" :=
  ⟨by decide,
   (C5_backend_error_verbatim
      ⟨sampleForm, .granted sampleStream,
        .json (.obj [("ok", .bool false), ("error", .str "bad login")])⟩ samplePage sampleStream
      (.obj [("ok", .bool false), ("error", .str "bad login")]) (.bool false) "bad login"
      (by decide) rfl rfl rfl rfl rfl (by decide)).1⟩

/-- When the backend rejects with the empty string as error, or without an error, the fallback
text is displayed. -/
theorem falsy_error_shows_fallback (env : Env) (p : Page) (s : MediaStream) (r ok error : JSValue)
    (hv : passesValidation env.formData) (hc : env.camera = .granted s)
    (hn : env.net = .json r) (hok : getProp r "ok" = some ok) (ht : truthy ok = false)
    (he : getProp r "error" = some error) (hf : truthy error = false) :
    (submitHandler env p).page.errorText = "An unknown error occurred." := by
  have hs : toStr (rejectionMessage error) = some "An unknown error occurred." := by
    simp [rejectionMessage, hf, toStr]
  rw [run_rejected p (missingRequired_of_valid hv) hc hn hok ht he hs]
  rfl

/-- C6, at the failing input: the backend rejects with the empty array as error. The handler is
on the backend-rejection path, where the claim requires a visible error element with non-empty
text; the array is truthy, so line 69 passes it on, its string form is the empty string, and the
element is visible with empty text. The button is enabled and its text restored. -/
theorem C6_array_error_shows_empty_text :
    passesValidation sampleForm
      ∧ getProp (.obj [("ok", .bool false), ("error", .arr [])]) "ok" = some (.bool false)
      ∧ truthy (.bool false) = false
      ∧ (submitHandler ⟨sampleForm, .granted sampleStream,
            .json (.obj [("ok", .bool false), ("error", .arr [])])⟩ samplePage).page.errorDisplay
          = "block"
      ∧ (submitHandler ⟨sampleForm, .granted sampleStream,
            .json (.obj [("ok", .bool false), ("error", .arr [])])⟩ samplePage).page.errorText
          = ""
      ∧ (submitHandler ⟨sampleForm, .granted sampleStream,
            .json (.obj [("ok", .bool false), ("error", .arr [])])⟩
          samplePage).page.buttonDisabled = false
      ∧ (submitHandler ⟨sampleForm, .granted sampleStream,
            .json (.obj [("ok", .bool false), ("error", .arr [])])⟩ samplePage).page.buttonText
          = "Login" :=
  ⟨by decide, rfl, rfl, by decide, by decide, by decide, by decide⟩

/-- An error that is absent or a string is never a truthy value with an empty string form. -/
theorem string_error_not_empty_when_truthy (error : JSValue)
    (h : error = .undefined ∨ ∃ e, error = .str e) :
    truthy error = true → toStr error ≠ some "" := by
  rcases h with rfl | ⟨e, rfl⟩
  · intro ht
    simp [truthy] at ht
  · intro ht hs
    simp [truthy, toStr] at ht hs
    exact ht hs

/-- On every path of the handler that ends in an error (a required field is empty, the camera
request fails, the network request or the parsing of its body fails, the body is null, the
conversion of the token throws, or the backend responds with ok falsy and an error that is not a
truthy value whose string form is empty, which covers every absent and every string error), the
error message element is visible with non-empty text, the login button is enabled, and the text
of the button is the text it had when the handler started. -/
theorem error_paths_restore_button (env : Env) (p : Page)
    (h : (∃ name ∈ requiredFields, fieldEmpty env.formData name)
      ∨ (passesValidation env.formData ∧ env.camera = .denied)
      ∨ (passesValidation env.formData ∧ (∃ s, env.camera = .granted s)
          ∧ (env.net = .fetchRejected ∨ env.net = .jsonRejected
              ∨ ∃ r, env.net = .json r ∧ getProp r "ok" = none))
      ∨ (∃ r ok, responseReceived env r ∧ getProp r "ok" = some ok ∧ truthy ok = true
          ∧ (getProp r "token").bind toStr = none)
      ∨ (∃ r ok error, responseReceived env r ∧ getProp r "ok" = some ok ∧ truthy ok = false
          ∧ getProp r "error" = some error
          ∧ (truthy error = true → toStr error ≠ some ""))) :
    (submitHandler env p).page.errorDisplay = "block"
      ∧ (submitHandler env p).page.errorText ≠ ""
      ∧ (submitHandler env p).page.buttonDisabled = false
      ∧ (submitHandler env p).page.buttonText = p.buttonText := by
  rcases h with h | ⟨hv, hc⟩ | ⟨hv, ⟨s, hc⟩, hn⟩
    | ⟨r, ok, ⟨hv, ⟨s, hc⟩, hn⟩, hok, ht, htok⟩
    | ⟨r, ok, error, ⟨hv, ⟨s, hc⟩, hn⟩, hok, ht, he, hne⟩
  · rw [run_invalid p ((missingRequired_iff _).mpr h)]
    exact ⟨rfl, by simp [failedWorld], rfl, rfl⟩
  · rw [run_denied p (missingRequired_of_valid hv) hc]
    exact ⟨rfl, by simp [failedWorld], rfl, rfl⟩
  · have hw : submitHandler env p = failedWorld env p s := by
      rcases hn with hn | hn | ⟨r, hn, hok⟩
      · exact run_fetchRejected p (missingRequired_of_valid hv) hc hn
      · exact run_jsonRejected p (missingRequired_of_valid hv) hc hn
      · exact run_okThrows p (missingRequired_of_valid hv) hc hn hok
    rw [hw]
    exact ⟨rfl, by simp [failedWorld], rfl, rfl⟩
  · rw [run_tokenThrows p (missingRequired_of_valid hv) hc hn hok ht htok]
    exact ⟨rfl, by simp [failedAfterStopWorld], rfl, rfl⟩
  · cases hs : toStr (rejectionMessage error) with
    | none =>
      rw [run_messageThrows p (missingRequired_of_valid hv) hc hn hok ht he hs]
      exact ⟨rfl, by simp [failedWorld], rfl, rfl⟩
    | some text =>
      rw [run_rejected p (missingRequired_of_valid hv) hc hn hok ht he hs]
      refine ⟨rfl, ?_, rfl, rfl⟩
      show text ≠ ""
      intro htext
      subst htext
      cases hte : truthy error with
      | true =>
        simp only [rejectionMessage, hte, if_true] at hs
        exact hne hte hs
      | false =>
        simp [rejectionMessage, hte, toStr] at hs

/-- A sample of the previous theorem: the backend rejects without an error property. -/
theorem error_paths_restore_button_sample :
    responseReceived ⟨sampleForm, .granted sampleStream, .json (.obj [("ok", .bool false)])⟩
        (.obj [("ok", .bool false)])
      ∧ (submitHandler ⟨sampleForm, .granted sampleStream, .json (.obj [("ok", .bool false)])⟩
          samplePage).page.errorText ≠ ""
      ∧ (submitHandler ⟨sampleForm, .granted sampleStream, .json (.obj [("ok", .bool false)])⟩
          samplePage).page.buttonText = "Login" :=
  ⟨⟨by decide, ⟨sampleStream, rfl⟩, rfl⟩,
   (error_paths_restore_button
      ⟨sampleForm, .granted sampleStream, .json (.obj [("ok", .bool false)])⟩ samplePage
      (Or.inr (Or.inr (Or.inr (Or.inr ⟨.obj [("ok", .bool false)], .bool false, .undefined,
        ⟨by decide, ⟨sampleStream, rfl⟩, rfl⟩, rfl, rfl, rfl,
        string_error_not_empty_when_truthy .undefined (Or.inl rfl)⟩))))).2.1,
   (error_paths_restore_button
      ⟨sampleForm, .granted sampleStream, .json (.obj [("ok", .bool false)])⟩ samplePage
      (Or.inr (Or.inr (Or.inr (Or.inr ⟨.obj [("ok", .bool false)], .bool false, .undefined,
        ⟨by decide, ⟨sampleStream, rfl⟩, rfl⟩, rfl, rfl, rfl,
        string_error_not_empty_when_truthy .undefined (Or.inl rfl)⟩))))).2.2.2⟩

/-! ### The network request -/

theorem requests_append (l₁ l₂ : List Effect) :
    requests (l₁ ++ l₂) = requests l₁ ++ requests l₂ := by
  induction l₁ with
  | nil => rfl
  | cons e rest ih => cases e <;> simp [requests, ih]

theorem requests_trackStops (tracks : List Nat) :
    requests (tracks.map Effect.trackStop) = [] := by
  induction tracks with
  | nil => rfl
  | cons t rest ih => simpa [requests] using ih

theorem requests_run_granted {env : Env} (p : Page) {s : MediaStream}
    (hm : missingRequired env.formData = false) (hc : env.camera = .granted s) :
    requests (submitHandler env p).trace = [loginRequest env.formData] := by
  rcases run_granted_cases p hm hc with h | h | ⟨tok, h⟩ | ⟨text, h⟩ <;> rw [h]
  · simp [failedWorld, requests_append, requests_trackStops, requests]
  · simp [failedAfterStopWorld, requests_append, requests_trackStops, requests]
  · simp [successWorld, requests_append, requests_trackStops, requests]
  · simp [rejectedWorld, requests_append, requests_trackStops, requests]

theorem formProp_of_valid {fd : List (String × String)} (hv : passesValidation fd)
    (name : String) (hmem : name ∈ requiredFields) : ∃ v, formProp fd name = some v := by
  cases hf : formProp fd name with
  | none => exact absurd (Or.inl hf) (hv name hmem)
  | some v => exact ⟨v, rfl⟩

/-- Counterexample to C7 as stated: the form has no role entry, the submission passes validation
and acquires the camera, and the body of the one request has two keys, not three. -/
theorem C7_counterexample :
    passesValidation formWithoutRole
      ∧ requests (submitHandler ⟨formWithoutRole, .granted sampleStream,
            .json (.obj [("ok", .bool true), ("token", .str "abc")])⟩ samplePage).trace
          = [{ url := "http://127.0.0.1:5001/api/login", method := "POST",
               headers := [("Content-Type", "application/json")],
               body := [("username", "u"), ("password", "p")] }]
      ∧ ¬ ∃ req ∈ requests (submitHandler ⟨formWithoutRole, .granted sampleStream,
            .json (.obj [("ok", .bool true), ("token", .str "abc")])⟩ samplePage).trace,
          req.body.map Prod.fst = ["username", "password", "role"] :=
  ⟨by decide, by decide, by decide⟩

/-- C7, amended: for every submission that passes validation and acquires the camera, the handler
issues exactly one network request: a POST to http://127.0.0.1:5001/api/login with Content-Type
application/json whose body is the JSON object with the keys username and password, followed by
the key role when the form has a role entry, each equal to the corresponding form field; when the
form has no role entry the body has no role key. The fields fullName and usn are not part of
the body. -/
theorem C7_single_login_request (env : Env) (p : Page) (s : MediaStream)
    (hv : passesValidation env.formData) (hc : env.camera = .granted s) :
    (∃ u pw, formProp env.formData "username" = some u
        ∧ formProp env.formData "password" = some pw
        ∧ requests (submitHandler env p).trace
            = [{ url := "http://127.0.0.1:5001/api/login", method := "POST",
                 headers := [("Content-Type", "application/json")],
                 body := ("username", u) :: ("password", pw) ::
                   (match formProp env.formData "role" with
                    | some role => [("role", role)]
                    | none => []) }])
      ∧ (∀ req ∈ requests (submitHandler env p).trace, ∀ kv ∈ req.body,
          kv.1 ≠ "fullName" ∧ kv.1 ≠ "usn") := by
  obtain ⟨u, hu⟩ := formProp_of_valid hv "username" (by decide)
  obtain ⟨pw, hpw⟩ := formProp_of_valid hv "password" (by decide)
  rw [requests_run_granted p (missingRequired_of_valid hv) hc]
  constructor
  · refine ⟨u, pw, hu, hpw, ?_⟩
    cases hr : formProp env.formData "role" <;> simp [loginRequest, hu, hpw, hr, JSON_stringify]
  · intro req hreq kv hkv
    simp only [List.mem_singleton] at hreq
    subst hreq
    cases hr : formProp env.formData "role" <;>
      simp [loginRequest, hu, hpw, hr, JSON_stringify] at hkv <;>
      rcases hkv with rfl | rfl | rfl <;> simp

/-- Witness of C7: a complete form with a role entry. -/
theorem C7_single_login_request_witness :
    passesValidation sampleForm
      ∧ ∃ u pw, formProp sampleForm "username" = some u
        ∧ formProp sampleForm "password" = some pw
        ∧ requests (submitHandler ⟨sampleForm, .granted sampleStream, .fetchRejected⟩
              samplePage).trace
            = [{ url := "http://127.0.0.1:5001/api/login", method := "POST",
                 headers := [("Content-Type", "application/json")],
                 body := ("username", u) :: ("password", pw) ::
                   (match formProp sampleForm "role" with
                    | some role => [("role", role)]
                    | none => []) }] :=
  ⟨by decide,
   (C7_single_login_request ⟨sampleForm, .granted sampleStream, .fetchRejected⟩ samplePage
      sampleStream (by decide) rfl).1⟩

/-! ### Navigation -/

theorem navigates_run_granted {env : Env} (p : Page) {s : MediaStream}
    (hm : missingRequired env.formData = false) (hc : env.camera = .granted s) :
    navigates (submitHandler env p).trace = true
      ↔ ∃ r ok token tok, env.net = .json r ∧ getProp r "ok" = some ok ∧ truthy ok = true
          ∧ getProp r "token" = some token ∧ toStr token = some tok := by
  constructor
  · intro hnav
    cases hn : env.net with
    | fetchRejected =>
      rw [run_fetchRejected p hm hc hn, navigates_eq_true_iff] at hnav
      simp [failedWorld] at hnav
    | jsonRejected =>
      rw [run_jsonRejected p hm hc hn, navigates_eq_true_iff] at hnav
      simp [failedWorld] at hnav
    | json r =>
      cases hok : getProp r "ok" with
      | none =>
        rw [run_okThrows p hm hc hn hok, navigates_eq_true_iff] at hnav
        simp [failedWorld] at hnav
      | some ok =>
        cases ht : truthy ok with
        | true =>
          cases htok : (getProp r "token").bind toStr with
          | none =>
            rw [run_tokenThrows p hm hc hn hok ht htok, navigates_eq_true_iff] at hnav
            simp [failedAfterStopWorld] at hnav
          | some tok =>
            cases hg : getProp r "token" with
            | none => simp [hg] at htok
            | some token =>
              rw [hg] at htok
              exact ⟨r, ok, token, tok, rfl, hok, ht, hg, htok⟩
        | false =>
          obtain ⟨error, he⟩ := getProp_error_of_ok hok
          cases hs : toStr (rejectionMessage error) with
          | none =>
            rw [run_messageThrows p hm hc hn hok ht he hs, navigates_eq_true_iff] at hnav
            simp [failedWorld] at hnav
          | some text =>
            rw [run_rejected p hm hc hn hok ht he hs, navigates_eq_true_iff] at hnav
            simp [rejectedWorld] at hnav
  · rintro ⟨r, ok, token, tok, hn, hok, ht, hg, htok⟩
    have hb : (getProp r "token").bind toStr = some tok := by rw [hg]; exact htok
    rw [run_success p hm hc hn hok ht hb, navigates_eq_true_iff]
    exact ⟨"examproctor://start?token=" ++ tok, by simp [successWorld]⟩

/-- C8, at the failing input: the response is received and its ok is truthy, so the claim requires
an assignment to window.location.href; the token is an object with an own `toString` property,
the template literal of line 66 throws after the camera was stopped, no assignment takes place and
the handler ends in the catch block with the connection error shown. -/
theorem C8_opaque_token_no_navigation :
    responseReceived ⟨sampleForm, .granted sampleStream, .json opaqueTokenResponse⟩
        opaqueTokenResponse
      ∧ getProp opaqueTokenResponse "ok" = some (.bool true)
      ∧ truthy (.bool true) = true
      ∧ navigates (submitHandler ⟨sampleForm, .granted sampleStream, .json opaqueTokenResponse⟩
          samplePage).trace = false
      ∧ (submitHandler ⟨sampleForm, .granted sampleStream, .json opaqueTokenResponse⟩
          samplePage).trace
          = [.preventDefault, .getUserMedia, .setSrcObject (some sampleStream),
              .fetch (loginRequest sampleForm), .trackStop 7, .trackStop 8, .setSrcObject none,
              .consoleError "Network or server error:", .setSrcObject none] :=
  ⟨⟨by decide, ⟨sampleStream, rfl⟩, rfl⟩, rfl, rfl, by decide, by decide⟩

/-- The handler assigns window.location.href if and only if the backend response was received, its
ok is truthy and its token can be converted to a string; the assigned value is then the string
examproctor://start?token= followed by the string form of the token, which for a token string
is the token itself. -/
theorem navigation_iff_convertible_token (env : Env) (p : Page) :
    (navigates (submitHandler env p).trace = true
        ↔ ∃ r ok token tok, responseReceived env r ∧ getProp r "ok" = some ok ∧ truthy ok = true
            ∧ getProp r "token" = some token ∧ toStr token = some tok)
      ∧ (∀ r ok token tok, responseReceived env r → getProp r "ok" = some ok → truthy ok = true →
          getProp r "token" = some token → toStr token = some tok →
          ∀ url, Effect.navigate url ∈ (submitHandler env p).trace
            ↔ url = "examproctor://start?token=" ++ tok)
      ∧ (∀ r ok t, responseReceived env r → getProp r "ok" = some ok → truthy ok = true →
          getProp r "token" = some (.str t) →
          ∀ url, Effect.navigate url ∈ (submitHandler env p).trace
            ↔ url = "examproctor://start?token=" ++ t) := by
  have general : ∀ r ok token tok, responseReceived env r → getProp r "ok" = some ok →
      truthy ok = true → getProp r "token" = some token → toStr token = some tok →
      ∀ url, Effect.navigate url ∈ (submitHandler env p).trace
        ↔ url = "examproctor://start?token=" ++ tok := by
    rintro r ok token tok ⟨hv, ⟨s, hc⟩, hn⟩ hok ht hg htok url
    have hb : (getProp r "token").bind toStr = some tok := by rw [hg]; exact htok
    rw [run_success p (missingRequired_of_valid hv) hc hn hok ht hb]
    simp [successWorld]
  refine ⟨?_, general, fun r ok t hr hok ht hg => general r ok (.str t) t hr hok ht hg rfl⟩
  constructor
  · intro hnav
    cases hm : missingRequired env.formData with
    | true =>
      rw [run_invalid p hm, navigates_eq_true_iff] at hnav
      simp at hnav
    | false =>
      have hv : passesValidation env.formData := by
        intro name hmem hempty
        have := (missingRequired_iff env.formData).mpr ⟨name, hmem, hempty⟩
        rw [hm] at this
        exact Bool.false_ne_true this
      cases hc : env.camera with
      | denied =>
        rw [run_denied p hm hc, navigates_eq_true_iff] at hnav
        simp at hnav
      | granted s =>
        obtain ⟨r, ok, token, tok, hn, hrest⟩ := (navigates_run_granted p hm hc).mp hnav
        exact ⟨r, ok, token, tok, ⟨hv, ⟨s, hc⟩, hn⟩, hrest⟩
  · rintro ⟨r, ok, token, tok, ⟨hv, ⟨s, hc⟩, hn⟩, hrest⟩
    exact (navigates_run_granted p (missingRequired_of_valid hv) hc).mpr
      ⟨r, ok, token, tok, hn, hrest⟩

/-- A sample of the previous theorem: a successful login with the token `abc`. -/
theorem navigation_iff_convertible_token_sample :
    responseReceived ⟨sampleForm, .granted sampleStream,
          .json (.obj [("ok", .bool true), ("token", .str "abc")])⟩
        (.obj [("ok", .bool true), ("token", .str "abc")])
      ∧ Effect.navigate "examproctor://start?token=abc"
          ∈ (submitHandler ⟨sampleForm, .granted sampleStream,
                .json (.obj [("ok", .bool true), ("token", .str "abc")])⟩ samplePage).trace :=
  ⟨⟨by decide, ⟨sampleStream, rfl⟩, rfl⟩,
   ((navigation_iff_convertible_token
      ⟨sampleForm, .granted sampleStream,
        .json (.obj [("ok", .bool true), ("token", .str "abc")])⟩ samplePage).2.2
      (.obj [("ok", .bool true), ("token", .str "abc")]) (.bool true) "abc"
      ⟨by decide, ⟨sampleStream, rfl⟩, rfl⟩ rfl rfl rfl
      "examproctor://start?token=abc").mpr (by decide)⟩

/-- For a response whose token is absent or a string, the handler assigns window.location.href
if and only if the response was received and its ok is truthy. -/
theorem navigation_iff_ok_of_string_token (env : Env) (p : Page)
    (hshape : ∀ r token, env.net = .json r → getProp r "token" = some token →
      token = .undefined ∨ ∃ t, token = .str t) :
    navigates (submitHandler env p).trace = true
      ↔ ∃ r ok, responseReceived env r ∧ getProp r "ok" = some ok ∧ truthy ok = true := by
  rw [(navigation_iff_convertible_token env p).1]
  constructor
  · rintro ⟨r, ok, token, tok, hr, hok, ht, -, -⟩
    exact ⟨r, ok, hr, hok, ht⟩
  · rintro ⟨r, ok, hr, hok, ht⟩
    obtain ⟨token, hg⟩ := getProp_of_ok hok "token"
    rcases hshape r token hr.2.2 hg with rfl | ⟨t, rfl⟩
    · exact ⟨r, ok, .undefined, "undefined", hr, hok, ht, hg, rfl⟩
    · exact ⟨r, ok, .str t, t, hr, hok, ht, hg, rfl⟩

/-! ### stopCamera -/

theorem startCamera_granted (s : MediaStream) (w : World) :
    startCamera (.granted s) w
      = .normal { page := { w.page with srcObject := some s, placeholderDisplay := "none",
                                        feedDisplay := "block" }
                  trace := w.trace ++ [.getUserMedia, .setSrcObject (some s)] } := by
  simp [startCamera, emit]

/-- C9: from every state, after stopCamera returns cameraFeed.srcObject is null, the placeholder is
displayed as block, the feed as none, and every track of the previously attached stream (if
any) has been stopped; applying stopCamera twice gives the same page as applying it once; and
after a successful startCamera it shows the placeholder again and hides the feed again, which
restores the page when the placeholder was shown, the feed hidden and no stream attached. -/
theorem C9_stopCamera_resets (w : World) :
    (stopCamera w).page.srcObject = none
      ∧ (stopCamera w).page.placeholderDisplay = "block"
      ∧ (stopCamera w).page.feedDisplay = "none"
      ∧ (w.page.srcObject = none → (stopCamera w).page.stopped = w.page.stopped)
      ∧ (∀ s, w.page.srcObject = some s →
          ∀ t ∈ s.tracks, t ∈ (stopCamera w).page.stopped
            ∧ Effect.trackStop t ∈ (stopCamera w).trace)
      ∧ (stopCamera (stopCamera w)).page = (stopCamera w).page
      ∧ (∀ s w₂, startCamera (.granted s) w = .normal w₂ →
          w₂.page.placeholderDisplay = "none" ∧ w₂.page.feedDisplay = "block"
            ∧ (stopCamera w₂).page.placeholderDisplay = "block"
            ∧ (stopCamera w₂).page.feedDisplay = "none"
            ∧ (stopCamera w₂).page.srcObject = none
            ∧ (w.page.srcObject = none → w.page.placeholderDisplay = "block" →
                w.page.feedDisplay = "none" →
                (stopCamera w₂).page = { w.page with stopped := w.page.stopped ++ s.tracks })) := by
  refine ⟨rfl, rfl, rfl, ?_, ?_, rfl, ?_⟩
  · intro h
    simp [stopCamera, emit, h]
  · intro s h t ht
    simp [stopCamera, emit, h, ht]
  · intro s w₂ h
    rw [startCamera_granted] at h
    injection h with h
    subst h
    refine ⟨rfl, rfl, rfl, rfl, rfl, ?_⟩
    intro h₁ h₂ h₃
    obtain ⟨page, trace⟩ := w
    obtain ⟨ed, et, bd, bt, src, pd, fd, st⟩ := page
    simp only at h₁ h₂ h₃
    subst h₁ h₂ h₃
    simp [stopCamera, emit]

/-- Witness of C9: stopCamera on a page with an attached stream of two tracks, and after a
successful startCamera on the sample page. -/
theorem C9_stopCamera_resets_witness :
    (∀ t ∈ sampleStream.tracks,
        t ∈ (stopCamera ⟨{ samplePage with srcObject := some sampleStream }, []⟩).page.stopped
          ∧ Effect.trackStop t
              ∈ (stopCamera ⟨{ samplePage with srcObject := some sampleStream }, []⟩).trace)
      ∧ (stopCamera ⟨{ samplePage with srcObject := some sampleStream,
                                        placeholderDisplay := "none", feedDisplay := "block" },
            [.getUserMedia, .setSrcObject (some sampleStream)]⟩).page
          = { samplePage with stopped := [7, 8] } :=
  ⟨(C9_stopCamera_resets ⟨{ samplePage with srcObject := some sampleStream }, []⟩).2.2.2.2.1
      sampleStream rfl,
   ((C9_stopCamera_resets ⟨samplePage, []⟩).2.2.2.2.2.2 sampleStream
      ⟨{ samplePage with srcObject := some sampleStream,
                         placeholderDisplay := "none", feedDisplay := "block" },
        [.getUserMedia, .setSrcObject (some sampleStream)]⟩ rfl).2.2.2.2.2 rfl rfl rfl⟩

/-! ### The success path -/

/-- C10, at the failing input: the ok of the response is truthy, so the claim requires the error
element hidden with empty text and the button still disabled with the text Logging in...; the
conversion of the token throws on line 66 after the camera was stopped, and the handler ends in
the catch block with the connection error shown, the button enabled and its text restored. -/
theorem C10_opaque_token_reenables_button :
    passesValidation sampleForm
      ∧ getProp opaqueTokenResponse "ok" = some (.bool true)
      ∧ truthy (.bool true) = true
      ∧ (submitHandler ⟨sampleForm, .granted sampleStream, .json opaqueTokenResponse⟩
          samplePage).page.errorDisplay = "block"
      ∧ (submitHandler ⟨sampleForm, .granted sampleStream, .json opaqueTokenResponse⟩
          samplePage).page.errorText
          = "Could not connect to the server. Please check your connection and try again."
      ∧ (submitHandler ⟨sampleForm, .granted sampleStream, .json opaqueTokenResponse⟩
          samplePage).page.buttonDisabled = false
      ∧ (submitHandler ⟨sampleForm, .granted sampleStream, .json opaqueTokenResponse⟩
          samplePage).page.buttonText = "Login" :=
  ⟨by decide, rfl, rfl, by decide, by decide, by decide, by decide⟩

/-- For every submission whose backend response has a truthy ok and a token that can be converted
to a string (every absent and every string token), and whatever error text was displayed before,
when the handler completes the error message element is hidden with empty text, and the login
button is still disabled with the text Logging in... -/
theorem success_keeps_button_disabled (env : Env) (p : Page) (s : MediaStream)
    (r ok token : JSValue) (tok : String)
    (hv : passesValidation env.formData) (hc : env.camera = .granted s)
    (hn : env.net = .json r) (hok : getProp r "ok" = some ok) (ht : truthy ok = true)
    (hg : getProp r "token" = some token) (htok : toStr token = some tok) :
    (submitHandler env p).page.errorDisplay = "none"
      ∧ (submitHandler env p).page.errorText = ""
      ∧ (submitHandler env p).page.buttonDisabled = true
      ∧ (submitHandler env p).page.buttonText = "Logging in..." := by
  have hb : (getProp r "token").bind toStr = some tok := by rw [hg]; exact htok
  rw [run_success p (missingRequired_of_valid hv) hc hn hok ht hb]
  exact ⟨rfl, rfl, rfl, rfl⟩

/-- A sample of the previous theorem: a successful login on a page that still shows an old
error. -/
theorem success_keeps_button_disabled_sample :
    passesValidation sampleForm
      ∧ samplePage.errorText = "old"
      ∧ (submitHandler ⟨sampleForm, .granted sampleStream,
            .json (.obj [("ok", .bool true), ("token", .str "abc")])⟩ samplePage).page.errorText
          = ""
      ∧ (submitHandler ⟨sampleForm, .granted sampleStream,
            .json (.obj [("ok", .bool true), ("token", .str "abc")])⟩
          samplePage).page.buttonDisabled = true :=
  ⟨by decide, rfl,
   (success_keeps_button_disabled
      ⟨sampleForm, .granted sampleStream,
        .json (.obj [("ok", .bool true), ("token", .str "abc")])⟩ samplePage sampleStream
      (.obj [("ok", .bool true), ("token", .str "abc")]) (.bool true) (.str "abc") "abc"
      (by decide) rfl rfl rfl rfl rfl rfl).2.1,
   (success_keeps_button_disabled
      ⟨sampleForm, .granted sampleStream,
        .json (.obj [("ok", .bool true), ("token", .str "abc")])⟩ samplePage sampleStream
      (.obj [("ok", .bool true), ("token", .str "abc")]) (.bool true) (.str "abc") "abc"
      (by decide) rfl rfl rfl rfl rfl rfl).2.2.1⟩

end Proctoring
